import Mathlib

/-!
Verification development for the suno-ai-plugin repository (src/plugin.py).

The core of the plugin is `SunoAIClient.get_task_status`, which normalizes a
heterogeneous decoded-JSON task-status payload into a flat result record, and
the fixed-interval poll loop of `SunoSingCommand.execute`.  Both are embedded
below as pure Lean functions over a `Json` value type mirroring what Python's
`json` module can decode (numbers are restricted to integers; none of the
analysed payloads involve floats).  Python exceptions that can escape the
normalization code and reach the blanket `except Exception` handler are
modelled by an explicit error constructor carrying the Python `str(e)` text.
-/

namespace SunoSpec

/-- Decoded JSON values as produced by Python's `json.loads` (floats omitted:
the normalizer under study never manipulates numeric payload values). -/
inductive Json where
  | null : Json
  | bool : Bool → Json
  | num : Int → Json
  | str : String → Json
  | arr : List Json → Json
  | obj : List (String × Json) → Json

/-- Python truthiness (`bool(v)`) for decoded JSON values. -/
def truthy : Json → Bool
  | .null => false
  | .bool b => b
  | .num n => n != 0
  | .str s => !s.data.isEmpty
  | .arr l => !l.isEmpty
  | .obj l => !l.isEmpty

/-- Python `type(v).__name__` for decoded JSON values. -/
def pyTypeName : Json → String
  | .null => "NoneType"
  | .bool _ => "bool"
  | .num _ => "int"
  | .str _ => "str"
  | .arr _ => "list"
  | .obj _ => "dict"

def isDict : Json → Bool
  | .obj _ => true
  | _ => false

def isStr : Json → Bool
  | .str _ => true
  | _ => false

def isList : Json → Bool
  | .arr _ => true
  | _ => false

/-- First-match association-list lookup (Python dicts have unique keys, so
first-match agrees with dict lookup on faithful encodings). -/
def lookupStr {α : Type} : List (String × α) → String → Option α
  | [], _ => none
  | (k, v) :: rest, key => if k = key then some v else lookupStr rest key

/-- Python `d.get(k)` restricted to dict-shaped values (`none` when the key is
absent or the value is not a dict; every call site below is isinstance-guarded
or error-guarded exactly as in the source). -/
def jlookup : Json → String → Option Json
  | .obj fs, k => lookupStr fs k
  | _, _ => none

/-- Python `d.get(k)`: absent keys give `None`. -/
def dget (x : Json) (k : String) : Json := (jlookup x k).getD .null

/-- Python `d.get(k, default)`. -/
def dgetD (x : Json) (k : String) (d : Json) : Json := (jlookup x k).getD d

/-- Python `k in d` on a dict: key membership, regardless of the value. -/
def hasKey (x : Json) (k : String) : Bool := (jlookup x k).isSome

/-- Python `a or b`: first operand when truthy, else the second. -/
def pyOr (a b : Json) : Json := if truthy a then a else b

/-- Python `d.get(k1) or d.get(k2) or ...`: the last operand is returned even
when falsy (e.g. an empty string). -/
def orChain (x : Json) : List String → Json
  | [] => .null
  | [k] => dget x k
  | k :: rest => pyOr (dget x k) (orChain x rest)

/-- Python `v == "lit"` where `lit` is a string literal: values of other
types compare unequal. -/
def jeqStr (j : Json) (s : String) : Bool :=
  match j with
  | .str t => t == s
  | _ => false

/-- The status-token dictionary of `get_task_status` (plugin.py lines
171-178). -/
def status_mapping : List (String × String) :=
  [("SUCCESS", "SUCCESS"),
   ("FAILURE", "FAILED"),
   ("IN_PROGRESS", "PROCESSING"),
   ("QUEUED", "PROCESSING"),
   ("SUBMITTED", "PROCESSING"),
   ("NOT_START", "PROCESSING")]

/-- Python `status_mapping.get(status, "PROCESSING")` on a string token
(plugin.py line 180). -/
def mapStatus (s : String) : String := (lookupStr status_mapping s).getD "PROCESSING"

/-- The same dictionary lookup on an arbitrary hashable decoded value: the
dictionary's keys are all strings, so non-string values fall to the default.
Unhashable values (dict/list) raise and are handled at the call site. -/
def mapStatusJson : Json → String
  | .str s => mapStatus s
  | _ => "PROCESSING"

/-- The candidate URL field list of `get_task_status` (plugin.py lines
186-190). -/
def potential_url_fields : List String :=
  ["audio_url", "url", "song_url", "play_url", "download_url",
   "audio", "audio_file", "file_url", "mp3_url", "mp3",
   "song", "music_url", "music_file", "download", "play"]

/-- The clip-identifier candidate chain `id` / `clip_id` / `clipId`. -/
def clip_id_fields : List String := ["id", "clip_id", "clipId"]

/-- The image-URL candidate chain. -/
def image_url_fields : List String := ["image_url", "cover_url", "thumbnail_url"]

/-- The lyrics candidate chain (the `prompt` field carries the lyrics). -/
def lyrics_fields : List String := ["prompt", "lyrics", "text", "content"]

/-- The title candidate chain. -/
def title_fields : List String := ["title", "name", "display_name"]

/-- The author candidate chain. -/
def author_fields : List String := ["handle", "display_name", "author"]

/-- Python loop `for field in potential_url_fields: if x.get(field): ... break`
(plugin.py lines 218-222 and the analogous nested loops): the first candidate
field with a truthy value, `null` when none is truthy. -/
def findField (x : Json) : List String → Json
  | [] => .null
  | f :: rest => if truthy (dget x f) then dget x f else findField x rest

/-- ASCII whitespace stripped by Python `str.strip()` (the payloads under
study contain no non-ASCII whitespace). -/
def isPyWs (c : Char) : Bool :=
  c = ' ' || c = '\t' || c = '\n' || c = '\r' || c = Char.ofNat 11 || c = Char.ofNat 12

/-- The backtick character. -/
def btick : Char := Char.ofNat 96

/-- Python `s.strip()` on the character list of a string. -/
def stripChars (l : List Char) : List Char :=
  ((l.dropWhile isPyWs).reverse.dropWhile isPyWs).reverse

/-- URL sanitization of `get_task_status` (plugin.py lines 404-407 and
410-412): strip surrounding whitespace, then drop one leading and one trailing
backtick when both are present. -/
def sanitizeUrl (s : String) : String :=
  let t := stripChars s.data
  if t.head? = some btick ∧ t.getLast? = some btick then
    String.mk ((t.drop 1).dropLast)
  else
    String.mk t

/-- One-level-deeper container search inside one shallow container (plugin.py
lines 242-254): for each of `clip`, `audio`, `result` inside `nested`, update
the clip id by an or-chain, then take the first truthy candidate URL; the
deep loop stops as soon as a URL is found. -/
def searchDeep (nested : Json) : Json → List String → Json × Json
  | ci, [] => (.null, ci)
  | ci, k :: rest =>
    let deep := dgetD nested k (.obj [])
    if isDict deep then
      let ci2 := pyOr ci (orChain deep clip_id_fields)
      let su := findField deep potential_url_fields
      if truthy su then (su, ci2) else searchDeep nested ci2 rest
    else searchDeep nested ci rest

/-- Shallow-container search (plugin.py lines 227-256): for each of `clip`,
`audio`, `result`, `data` in order, search the container itself and then —
before moving to the next container — one level deeper inside it via
`searchDeep`.  Returns the found URL (or `null`) and the updated clip id. -/
def searchContainers (td : Json) : Json → List String → Json × Json
  | ci, [] => (.null, ci)
  | ci, k :: rest =>
    let nested := dgetD td k (.obj [])
    if isDict nested then
      let ci2 := pyOr ci (orChain nested clip_id_fields)
      let su := findField nested potential_url_fields
      if truthy su then (su, ci2)
      else
        let p := searchDeep nested ci2 ["clip", "audio", "result"]
        if truthy p.1 then p else searchContainers td p.2 rest
    else searchContainers td ci rest

/-- The `audio_info` / `audioInfo` fallback (plugin.py lines 260-266). -/
def audioInfoSearch (td : Json) : Json :=
  let ai := pyOr (dgetD td "audio_info" (.obj [])) (dgetD td "audioInfo" (.obj []))
  if isDict ai then findField ai potential_url_fields else .null

/-- Iteration over the `results` / `clips` list (plugin.py lines 272-283):
dict items contribute to the clip-id or-chain; the loop stops at the first
item yielding a truthy URL. -/
def searchItems : Json → List Json → Json × Json
  | ci, [] => (.null, ci)
  | ci, item :: rest =>
    if isDict item then
      let ci2 := pyOr ci (orChain item clip_id_fields)
      let su := findField item potential_url_fields
      if truthy su then (su, ci2) else searchItems ci2 rest
    else searchItems ci rest

/-- The list-container search (plugin.py lines 270-283):
`task_data.get("results", []) or task_data.get("clips", [])`. -/
def searchResultsList (td : Json) (ci : Json) : Json × Json :=
  let results := pyOr (dgetD td "results" (.arr [])) (dgetD td "clips" (.arr []))
  match results with
  | .arr items => searchItems ci items
  | _ => (.null, ci)

/-- The whole URL/clip-id search of the dict case (plugin.py lines 211-283):
direct fields, then shallow/deep containers, then `audio_info`, then the
results list.  Each stage runs only while no URL has been found. -/
def dictSearch (td : Json) : Json × Json :=
  let ci := orChain td clip_id_fields
  let su := findField td potential_url_fields
  let p1 := if truthy su then (su, ci) else searchContainers td ci ["clip", "audio", "result", "data"]
  let su2 := if truthy p1.1 then p1.1 else audioInfoSearch td
  if truthy su2 then (su2, p1.2) else searchResultsList td p1.2

/-- JSON whitespace accepted between tokens. -/
def skipJsonWs (l : List Char) : List Char :=
  l.dropWhile fun c => c = ' ' || c = '\t' || c = '\n' || c = '\r'

/-- Simple escapes of JSON string literals (`\uXXXX` is not handled: a failed
parse is a `json.JSONDecodeError`, which the source swallows). -/
def unescapeChar (c : Char) : Option Char :=
  if c = Char.ofNat 34 then some (Char.ofNat 34)
  else if c = Char.ofNat 92 then some (Char.ofNat 92)
  else if c = '/' then some '/'
  else if c = 'n' then some '\n'
  else if c = 't' then some '\t'
  else if c = 'r' then some '\r'
  else if c = 'b' then some (Char.ofNat 8)
  else if c = 'f' then some (Char.ofNat 12)
  else none

/-- Body of a JSON string literal after the opening quote. -/
def parseStrBody : List Char → List Char → Option (String × List Char)
  | _, [] => none
  | acc, c :: rest =>
    if c = Char.ofNat 34 then some (String.mk acc.reverse, rest)
    else if c = Char.ofNat 92 then
      match rest with
      | [] => none
      | e :: rest2 =>
        match unescapeChar e with
        | some ch => parseStrBody (ch :: acc) rest2
        | none => none
    else parseStrBody (c :: acc) rest

/-- Accumulate decimal digits. -/
def digitsToNat : List Char → Nat → Nat
  | [], n => n
  | c :: rest, n => digitsToNat rest (n * 10 + (c.toNat - 48))

/-- Integer JSON number token (floats are rejected, i.e. treated as a decode
failure; the branch consuming this reader is unreachable, see below). -/
def parseIntTok (l : List Char) : Option (Int × List Char) :=
  let neg := match l with
    | c :: _ => c == '-'
    | [] => false
  let l2 := if neg then l.drop 1 else l
  let digs := l2.takeWhile Char.isDigit
  let rest := l2.drop digs.length
  if digs.isEmpty then none
  else
    let bad := match rest with
      | c :: _ => c == '.' || c == 'e' || c == 'E'
      | [] => false
    if bad then none
    else
      let n : Int := Int.ofNat (digitsToNat digs 0)
      some (if neg then -n else n, rest)

mutual

/-- Fuel-bounded reader for one JSON value.  It models `json.loads` for the
string branch of `get_task_status` (plugin.py lines 200-207); that branch is
provably unreachable (see `c6_scan_independence`-style lemmas below), so no
theorem depends on this reader's behaviour. -/
def pjsonVal : Nat → List Char → Option (Json × List Char)
  | 0, _ => none
  | fuel + 1, l =>
    match skipJsonWs l with
    | [] => none
    | c :: rest =>
      if c = Char.ofNat 34 then
        match parseStrBody [] rest with
        | some (s, r) => some (.str s, r)
        | none => none
      else if c = Char.ofNat 123 then
        match skipJsonWs rest with
        | c2 :: r2 =>
          if c2 = Char.ofNat 125 then some (.obj [], r2)
          else pjsonMembers fuel (c2 :: r2) []
        | [] => none
      else if c = '[' then
        match skipJsonWs rest with
        | c2 :: r2 =>
          if c2 = ']' then some (.arr [], r2)
          else pjsonElems fuel (c2 :: r2) []
        | [] => none
      else if c = 't' then
        if "rue".data.isPrefixOf rest then some (.bool true, rest.drop 3) else none
      else if c = 'f' then
        if "alse".data.isPrefixOf rest then some (.bool false, rest.drop 4) else none
      else if c = 'n' then
        if "ull".data.isPrefixOf rest then some (.null, rest.drop 3) else none
      else
        match parseIntTok (c :: rest) with
        | some (n, r) => some (.num n, r)
        | none => none

/-- Comma-separated JSON array elements up to the closing bracket. -/
def pjsonElems : Nat → List Char → List Json → Option (Json × List Char)
  | 0, _, _ => none
  | fuel + 1, l, acc =>
    match pjsonVal fuel l with
    | none => none
    | some (v, r) =>
      match skipJsonWs r with
      | c :: r2 =>
        if c = ',' then pjsonElems fuel r2 (v :: acc)
        else if c = ']' then some (.arr (v :: acc).reverse, r2)
        else none
      | [] => none

/-- Comma-separated JSON object members up to the closing brace. -/
def pjsonMembers : Nat → List Char → List (String × Json) → Option (Json × List Char)
  | 0, _, _ => none
  | fuel + 1, l, acc =>
    match skipJsonWs l with
    | c :: rest =>
      if c = Char.ofNat 34 then
        match parseStrBody [] rest with
        | none => none
        | some (k, r) =>
          match skipJsonWs r with
          | c2 :: r2 =>
            if c2 = ':' then
              match pjsonVal fuel r2 with
              | none => none
              | some (v, r3) =>
                match skipJsonWs r3 with
                | c3 :: r4 =>
                  if c3 = ',' then pjsonMembers fuel r4 ((k, v) :: acc)
                  else if c3 = Char.ofNat 125 then some (.obj ((k, v) :: acc).reverse, r4)
                  else none
                | [] => none
            else none
          | [] => none
      else none
    | [] => none

end

/-- Model of `json.loads` restricted to what the dead string branch could
ever need: `none` models a `json.JSONDecodeError`. -/
def json_loads (s : String) : Option Json :=
  match pjsonVal (s.data.length + 1) s.data with
  | some (v, r) => if (skipJsonWs r).isEmpty then some v else none
  | none => none

/-- Characters admitted inside the URL body by the regex character class
excluding whitespace, quotes and an angle bracket (plugin.py line 289). -/
def urlAllowedChar (c : Char) : Bool :=
  !(isPyWs c || c = Char.ofNat 34 || c = Char.ofNat 39 || c = '<')

/-- Audio extensions of the URL regex alternation. -/
def audio_exts : List String := ["mp3", "wav", "aac", "flac", "ogg"]

/-- Whether a candidate URL body ends in a dot followed by one of the audio
extensions, with at least one body character before the dot. -/
def extOk (l : List Char) : Bool :=
  audio_exts.any fun e =>
    (('.' :: e.data).isSuffixOf l) && decide (e.data.length + 2 ≤ l.length)

/-- Greedy backtracking of `[^..]+\.(ext)`: the largest admissible match
length within the allowed-character run. -/
def findDotExt (run : List Char) : Nat → Option Nat
  | 0 => none
  | j + 1 => if extOk (run.take (j + 1)) then some (j + 1) else findDotExt run j

/-- Attempt the URL regex starting after an `http(s)://` scheme. -/
def scanBody (pre : List Char) (rest : List Char) : Option (List Char) :=
  let run := rest.takeWhile urlAllowedChar
  match findDotExt run run.length with
  | some j => some (pre ++ run.take j)
  | none => none

/-- Attempt the URL regex anchored at the start of `l`. -/
def scanAt (l : List Char) : Option (List Char) :=
  if "https://".data.isPrefixOf l then scanBody "https://".data (l.drop 8)
  else if "http://".data.isPrefixOf l then scanBody "http://".data (l.drop 7)
  else none

/-- Leftmost regex match: try every start position in order. -/
def scanFrom : List Char → Option (List Char)
  | [] => none
  | c :: rest =>
    match scanAt (c :: rest) with
    | some m => some m
    | none => scanFrom rest

/-- Model of `re.findall(url_pattern, text)` followed by `matches[0][0]`
(plugin.py lines 289-292): the first full match of
`https?://[^\s"\'<]+\.(mp3|wav|aac|flac|ogg)`. -/
def url_scan (s : String) : Option String := (scanFrom s.data).map String.mk

/-- The success record of `get_task_status` (plugin.py lines 418-432): the
flat TaskResult.  Optional fields hold `Json.null` for Python `None`; they
keep whatever decoded value the search produced, as the source does. -/
structure TaskData where
  status : String
  progress : Nat
  song_url : Json
  image_url : Json
  lyrics : Json
  title : Json
  author : Json
  clip : Json
  clip_id : Json
  raw_data : Json

/-- Outcome of the normalization step of `get_task_status` once a decoded
body is at hand: the `success=True` record, or the `success=False` dictionary
whose `error` entry is either the remote `message` value or the `str(e)` text
of an exception caught by the blanket handler (plugin.py lines 433-448). -/
inductive NormResult where
  | ok : TaskData → NormResult
  | err : Json → NormResult

/-- Python `str(AttributeError)` for `v.get(...)` on a non-dict. -/
def noGetMsg (v : Json) : String :=
  "'" ++ pyTypeName v ++ "' object has no attribute 'get'"

/-- Python `str(AttributeError)` for `v.strip()` on a non-string. -/
def noStripMsg (v : Json) : String :=
  "'" ++ pyTypeName v ++ "' object has no attribute 'strip'"

/-- Python `str(TypeError)` for hashing a dict or list. -/
def unhashableMsg (v : Json) : String :=
  "unhashable type: '" ++ pyTypeName v ++ "'"

/-- Python `str(TypeError)` for `v[:100]` on a non-sliceable value. -/
def sliceMsg (v : Json) : String :=
  match v with
  | .obj _ => "unhashable type: 'slice'"
  | _ => "'" ++ pyTypeName v ++ "' object is not subscriptable"

/-- The string case of `get_task_status` (plugin.py lines 197-207): take the
string as clip id, then try to re-decode it into a dict or the head of a
list.  Dead in practice: line 168 already raised for non-dict `task_data`. -/
def stringCase (loads : String → Option Json) (td : Json) : Json × Json :=
  match td with
  | .str s =>
    match loads s with
    | some j =>
      if isDict j then (.str s, j)
      else
        match j with
        | .arr (x :: _) => (.str s, x)
        | _ => (.str s, td)
    | none => (.str s, td)
  | _ => (.null, td)

/-- The regex fallback of `get_task_status` (plugin.py lines 286-293), only
entered when no URL was found and `task_data` is (still) a string — which is
impossible, see the scan-independence theorem. -/
def regexCase (scan : String → Option String) (su td : Json) : Json :=
  if truthy su then su
  else
    match td with
    | .str s =>
      match scan s with
      | some u => .str u
      | none => su
    | _ => su

/-- The deeper resource-extraction loop (plugin.py lines 380-401): for each
container key, fill in every still-missing field, stopping early only when
all six are truthy. -/
def nestedResourceLoop (td : Json) :
    List String → Json → Json → Json → Json → Json → Json →
    Json × Json × Json × Json × Json × Json
  | [], img, lyr, ti, au, ci, su => (img, lyr, ti, au, ci, su)
  | k :: rest, img, lyr, ti, au, ci, su =>
    let nested := dgetD td k (.obj [])
    if isDict nested then
      let img2 := if truthy img then img else orChain nested image_url_fields
      let lyr2 := if truthy lyr then lyr else orChain nested lyrics_fields
      let ti2 := if truthy ti then ti else orChain nested title_fields
      let au2 := if truthy au then au else orChain nested author_fields
      let ci2 := if truthy ci then ci else orChain nested clip_id_fields
      let su2 := if truthy su then su else findField nested potential_url_fields
      if truthy img2 && truthy lyr2 && truthy ti2 && truthy au2 && truthy ci2 && truthy su2 then
        (img2, lyr2, ti2, au2, ci2, su2)
      else nestedResourceLoop td rest img2 lyr2 ti2 au2 ci2 su2
    else nestedResourceLoop td rest img lyr ti au ci su

/-- The nested-structure resource extraction (plugin.py lines 366-401):
direct or-chains on `task_data`, then the deeper loop when anything is still
missing. -/
def nestedExtraction (td su ci : Json) : Json × Json × Json × Json × Json × Json :=
  let img := orChain td image_url_fields
  let lyr := orChain td lyrics_fields
  let ti := orChain td title_fields
  let au := orChain td author_fields
  let ci2 := if truthy ci then ci else orChain td clip_id_fields
  if !truthy img || !truthy lyr || !truthy ti || !truthy au || !truthy ci2 || !truthy su then
    nestedResourceLoop td ["clip", "audio", "result", "data"] img lyr ti au ci2 su
  else (img, lyr, ti, au, ci2, su)

/-- The resource-extraction stage (plugin.py lines 307-401), producing
`(image_url, lyrics, title, author, clip_id, song_url)`. -/
def resourceStage (td su ci : Json) : Json × Json × Json × Json × Json × Json :=
  if isDict td then
    if hasKey td "audio_url" || hasKey td "image_url" || hasKey td "prompt" then
      let su2 := if truthy su then su else findField td potential_url_fields
      let img := orChain td image_url_fields
      let lyr := orChain td lyrics_fields
      let ti := orChain td title_fields
      let au := orChain td author_fields
      let ci2 := if truthy ci then ci else orChain td clip_id_fields
      (img, lyr, ti, au, ci2, su2)
    else
      let rl := pyOr (pyOr (dgetD td "data" (.arr [])) (dgetD td "results" (.arr [])))
        (dgetD td "clips" (.arr []))
      match rl with
      | .arr (item :: _) =>
        if isDict item then
          let img := orChain item image_url_fields
          let lyr := orChain item lyrics_fields
          let ti := orChain item title_fields
          let au := orChain item author_fields
          let su2 := if truthy su then su else findField item potential_url_fields
          let ci2 := if truthy ci then ci else orChain item clip_id_fields
          (img, lyr, ti, au, ci2, su2)
        else (.null, .null, .null, .null, ci, su)
      | .arr [] => nestedExtraction td su ci
      | _ => nestedExtraction td su ci
  else (.null, .null, .null, .null, ci, su)

/-- URL cleanup of plugin.py lines 404-413 applied to one found value: a
truthy non-string raises `AttributeError` at `.strip()`; falsy values pass
through untouched. -/
def sanitizeJson (v : Json) : Except String Json :=
  if truthy v then
    match v with
    | .str s => .ok (.str (sanitizeUrl s))
    | _ => .error (noStripMsg v)
  else .ok v

/-- Final sanitize-and-build step (plugin.py lines 403-432), including the
`lyrics[:100]` slice performed by the logging line 416 on truthy lyrics. -/
def finalize (mapped : String) (td img lyr ti au ci su : Json) : NormResult :=
  match sanitizeJson su with
  | .error m => .err (.str m)
  | .ok su2 =>
    match sanitizeJson img with
    | .error m => .err (.str m)
    | .ok img2 =>
      if truthy lyr && !(isStr lyr || isList lyr) then .err (.str (sliceMsg lyr))
      else
        .ok
          { status := mapped
            progress := if mapped = "SUCCESS" then 100 else 50
            song_url := su2
            image_url := img2
            lyrics := lyr
            title := pyOr ti (if isDict td then dget td "title" else .null)
            author := au
            clip := .obj []
            clip_id := ci
            raw_data := td }

/-- Body of the success case after the status token has been mapped
(plugin.py lines 183-432). -/
def normalizeBody (loads : String → Option Json) (scan : String → Option String)
    (mapped : String) (td0 : Json) : NormResult :=
  let p := stringCase loads td0
  let td := p.2
  let q := if isDict td then dictSearch td else (Json.null, p.1)
  let su := regexCase scan q.1 td
  let r := resourceStage td su q.2
  finalize mapped td r.1 r.2.1 r.2.2.1 r.2.2.2.1 r.2.2.2.2.1 r.2.2.2.2.2

/-- The status-token lookup `task_data.get("status", "PROCESSING")` of
plugin.py line 168. -/
def statusOf (task_data : Json) : Json := dgetD task_data "status" (.str "PROCESSING")

/-- The `code == "success"` case of `get_task_status` (plugin.py lines
167-432).  Line 168 calls `task_data.get("status", "PROCESSING")` before
anything else, so a non-dict `task_data` raises `AttributeError`, and an
unhashable status value raises `TypeError` at the dictionary lookup of line
180. -/
def normalizeSuccess (loads : String → Option Json) (scan : String → Option String)
    (task_data : Json) : NormResult :=
  if isDict task_data then
    if isDict (statusOf task_data) || isList (statusOf task_data) then
      .err (.str (unhashableMsg (statusOf task_data)))
    else normalizeBody loads scan (mapStatusJson (statusOf task_data)) task_data
  else .err (.str (noGetMsg task_data))

/-- Normalization of a decoded 200-response body (plugin.py lines 165-448):
the transport concerns (HTTP status, HTML content type, JSON decoding of the
body itself) happen before this point. -/
def normalizeWith (loads : String → Option Json) (scan : String → Option String)
    (data : Json) : NormResult :=
  if isDict data then
    if jeqStr (dget data "code") "success" then
      normalizeSuccess loads scan (dgetD data "data" (.obj []))
    else .err (dget data "message")
  else .err (.str "INVALID_RESPONSE_FORMAT")

/-- The concrete normalizer, with the JSON reader and URL scanner models
plugged in. -/
def normalize (data : Json) : NormResult := normalizeWith json_loads url_scan data

/-- A response envelope with `code == "success"` around a `data` payload. -/
def mkSuccess (td : Json) : Json := .obj [("code", .str "success"), ("data", td)]

/-- The `song_url` of a normalization outcome (`null` on failure). -/
def songUrlOf : NormResult → Json
  | .ok r => r.song_url
  | .err _ => .null

/-- The `clip_id` of a normalization outcome (`null` on failure). -/
def clipIdOf : NormResult → Json
  | .ok r => r.clip_id
  | .err _ => .null

/-- The string carried by a `Json.str`, and `""` otherwise. -/
def jstrVal : Json → String
  | .str s => s
  | _ => ""

/-- First truthy entry of a priority list of already-searched locations. -/
def firstTruthy (l : List Json) : Json := (l.find? truthy).getD .null

/-- Declarative URL-search entry for one container one level deeper inside
`n`. -/
def deepEntry (n : Json) (dk : String) : Json :=
  let d := dgetD n dk (.obj [])
  if isDict d then findField d potential_url_fields else .null

/-- Declarative URL-search entry for one item of the `results`/`clips` list. -/
def itemEntry (it : Json) : Json :=
  if isDict it then findField it potential_url_fields else .null

/-- Declarative URL-search entries contributed by one shallow container key:
the container itself, then — immediately, depth-first — one level deeper
under `clip`, `audio`, `result` (not `data`) inside it. -/
def containerEntries (td : Json) (k : String) : List Json :=
  let n := dgetD td k (.obj [])
  if isDict n then
    findField n potential_url_fields :: (["clip", "audio", "result"].map (deepEntry n))
  else [.null]

/-- Declarative URL-search entries of the `results`/`clips` list, in item
order. -/
def listItemEntries (td : Json) : List Json :=
  let results := pyOr (dgetD td "results" (.arr [])) (dgetD td "clips" (.arr []))
  match results with
  | .arr items => items.map itemEntry
  | _ => []

/-- The declarative priority order actually implemented by the URL search of
`get_task_status`: direct fields first; then the containers `clip`, `audio`,
`result`, `data` searched depth-first (each container immediately followed by
its own one-level-deeper `clip`/`audio`/`result` sub-containers); then
`audio_info`; then the list items. -/
def urlSpecList (td : Json) : List Json :=
  findField td potential_url_fields ::
    (["clip", "audio", "result", "data"].flatMap (containerEntries td) ++
      (audioInfoSearch td :: listItemEntries td))

/-- First truthy location of the declarative priority order. -/
def urlSearchSpec (td : Json) : Json := firstTruthy (urlSpecList td)

/-- Every payload key ever consulted by the normalization of a dict-shaped
`task_data`. -/
def searched_keys : List String :=
  ["status", "id", "clip_id", "clipId", "clip", "audio", "result", "data",
   "audio_info", "audioInfo", "results", "clips",
   "image_url", "cover_url", "thumbnail_url",
   "prompt", "lyrics", "text", "content",
   "title", "name", "display_name", "handle", "author"] ++ potential_url_fields

/-- One observation of the poll loop of `SunoSingCommand.execute`: a
successful status query carrying the mapped status string, or a failed one
carrying the error token. -/
inductive QueryOutcome where
  | ok : String → QueryOutcome
  | err : String → QueryOutcome

/-- Why the poll loop stopped. -/
inductive PollExit where
  | success : PollExit
  | generationFailed : PollExit
  | htmlAbort : PollExit
  | errorAbort : PollExit
  | timedOut : PollExit
deriving DecidableEq

/-- The consecutive-error cap of the poll loops (plugin.py line 844). -/
def max_consecutive_errors : Nat := 3

/-- The polling loop of `SunoSingCommand.execute` (plugin.py lines 846-892)
over the sequence of status-query outcomes it would observe, together with
the number of status queries actually issued.  Wall-clock timing is
abstracted: exhausting the outcome list models the timeout.  A successful
query resets the consecutive-error count (line 851); `SUCCESS`/`FAILED`
terminate (lines 855-865); an `HTML_RESPONSE` error returns immediately
(lines 873-879); other errors abort once the cap is reached (line 885). -/
def pollLoop : List QueryOutcome → Nat → PollExit × Nat
  | [], _ => (.timedOut, 0)
  | o :: rest, errs =>
    match o with
    | .ok st =>
      if st = "SUCCESS" then (.success, 1)
      else if st = "FAILED" then (.generationFailed, 1)
      else
        let p := pollLoop rest 0
        (p.1, p.2 + 1)
    | .err e =>
      if e = "HTML_RESPONSE" then (.htmlAbort, 1)
      else if max_consecutive_errors ≤ errs + 1 then (.errorAbort, 1)
      else
        let p := pollLoop rest (errs + 1)
        (p.1, p.2 + 1)

/-- C3's test payload: the first container `clip` holds a URL only one level
deeper (under `result`), while the later shallow container `result` holds one
directly. -/
def c3payload : Json :=
  mkSuccess (.obj
    [("clip", .obj [("result", .obj [("audio_url", .str "https://deep.example/d.mp3")])]),
     ("result", .obj [("audio_url", .str "https://shallow.example/s.mp3")])])

/-- C6's test payload: no candidate field anywhere, but the raw text of the
payload contains an audio URL the regex would match. -/
def c6payload : Json := mkSuccess (.obj [("note", .str "see https://a/b.mp3")])

/-- C8's test payload: the last clip-id candidate `clipId` is present but
empty. -/
def c8payload : Json := mkSuccess (.obj [("prompt", .str "x"), ("clipId", .str "")])

/-- C4's example payload from the specification. -/
def c4payload : Json :=
  mkSuccess (.obj [("status", .str "SUCCESS"), ("audio_url", .str " `https://x/y.mp3` ")])

/-- C1: the specification guarantees that normalization never raises and
returns an all-`None` `PROCESSING` TaskResult when nothing is discoverable.
The code instead raises `AttributeError` at `task_data.get("status", ...)`
(line 168) whenever the `data` field is a string — a shape its own lines
196-207 were written to handle — and the blanket `except` turns that into a
`success=False` error dictionary. -/
theorem c1_string_payload_attribute_error :
    normalize (mkSuccess (.str "abc")) =
      .err (.str "'str' object has no attribute 'get'") := rfl

/-- C5: a payload whose `data` field is the JSON encoding of an object is
not normalized like the decoded object: the string variant dies with
`AttributeError` at line 168 (the re-decoding code of lines 200-207 is
unreachable), while the object variant produces a `SUCCESS` record.  The
third conjunct certifies that the string really decodes to the object. -/
theorem c5_encoded_string_not_roundtripped :
    normalize (mkSuccess (.str "\x7b\"status\": \"SUCCESS\"\x7d")) =
      .err (.str "'str' object has no attribute 'get'") ∧
    normalize (mkSuccess (.obj [("status", .str "SUCCESS")])) =
      .ok { status := "SUCCESS", progress := 100, song_url := .null, image_url := .null,
            lyrics := .null, title := .null, author := .null, clip := .obj [],
            clip_id := .null, raw_data := .obj [("status", .str "SUCCESS")] } ∧
    json_loads "\x7b\"status\": \"SUCCESS\"\x7d" = some (.obj [("status", .str "SUCCESS")]) :=
  ⟨rfl, rfl, rfl⟩

/-- C7: resource fields are extracted from the first element of a `clips`
list when absent from the enclosing object: the spec's example payload yields
`clip_id="c1"`, `title="T"`, `lyrics="la la"`, with status `PROCESSING` and
no song URL. -/
theorem c7_clips_list_extraction :
    normalize (mkSuccess (.obj [("clips",
        .arr [.obj [("id", .str "c1"), ("title", .str "T"), ("prompt", .str "la la")]])])) =
      .ok { status := "PROCESSING", progress := 50, song_url := .null, image_url := .null,
            lyrics := .str "la la", title := .str "T", author := .null, clip := .obj [],
            clip_id := .str "c1",
            raw_data := .obj [("clips",
              .arr [.obj [("id", .str "c1"), ("title", .str "T"), ("prompt", .str "la la")]])] } :=
  rfl

/-- C3 counterexample: the claim says the four shallow containers are
exhausted before any deeper level is searched, so the URL directly under the
shallow container `result` should win; the code instead searches depth-first
and returns the URL found one level deeper inside the earlier container
`clip`. -/
theorem c3_deep_before_shallow_counterexample :
    songUrlOf (normalize c3payload) = .str "https://deep.example/d.mp3" ∧
    songUrlOf (normalize c3payload) ≠ .str "https://shallow.example/s.mp3" := by
  refine ⟨rfl, ?_⟩
  intro h
  rw [show songUrlOf (normalize c3payload) = .str "https://deep.example/d.mp3" from rfl] at h
  exact absurd (congrArg jstrVal h) (by decide)

/-- C6 counterexample: with no candidate URL field anywhere, the claim says
the regex scan over the raw payload text returns its first match as
`song_url`; the code's scan is dead (it requires a string `task_data`, which
raises earlier), so `song_url` stays `None` even though the scanner model
does find the URL in the raw text. -/
theorem c6_regex_scan_unreachable_counterexample :
    songUrlOf (normalize c6payload) = .null ∧
    url_scan "\x7b\"note\": \"see https://a/b.mp3\"\x7d" = some "https://a/b.mp3" :=
  ⟨rfl, rfl⟩

/-- C8 counterexample: with `clipId` present but empty (and `prompt` making
the direct-extraction branch run), the or-chain's last operand — the empty
string — is returned as `clip_id` instead of `None`, although no candidate
yields a non-empty value. -/
theorem c8_empty_clip_id_counterexample :
    clipIdOf (normalize c8payload) = .str "" ∧ clipIdOf (normalize c8payload) ≠ .null := by
  refine ⟨rfl, ?_⟩
  intro h
  rw [show clipIdOf (normalize c8payload) = .str "" from rfl] at h
  exact Json.noConfusion h

/-- C9 counterexample: an `HTML_RESPONSE` transport error aborts the poll
loop immediately — after a single error, with a successful outcome still
pending — contradicting the claim that the loop aborts only after three
consecutive transport/parse errors. -/
theorem c9_html_abort_counterexample :
    pollLoop [.err "HTML_RESPONSE", .ok "SUCCESS"] 0 = (.htmlAbort, 1) := rfl

/-- Helper: tokens other than `SUCCESS` and `FAILURE` map to `PROCESSING`. -/
theorem mapStatus_other (s : String) (h1 : s ≠ "SUCCESS") (h2 : s ≠ "FAILURE") :
    mapStatus s = "PROCESSING" := by
  simp only [mapStatus, status_mapping, lookupStr]
  rw [if_neg (Ne.symm h1), if_neg (Ne.symm h2)]
  repeat' split
  all_goals rfl

/-- C2: the status-mapping step is total and deterministic: `SUCCESS` maps to
`SUCCESS`, `FAILURE` to `FAILED`, each of `IN_PROGRESS`, `QUEUED`,
`SUBMITTED`, `NOT_START` to `PROCESSING`; an absent status field defaults to
`PROCESSING`; every token maps to one of the three values and every
unrecognized token maps to `PROCESSING` without raising. -/
theorem c2_status_mapping_total :
    mapStatus "SUCCESS" = "SUCCESS" ∧ mapStatus "FAILURE" = "FAILED" ∧
    mapStatus "IN_PROGRESS" = "PROCESSING" ∧ mapStatus "QUEUED" = "PROCESSING" ∧
    mapStatus "SUBMITTED" = "PROCESSING" ∧ mapStatus "NOT_START" = "PROCESSING" ∧
    mapStatusJson .null = "PROCESSING" ∧
    (∀ s : String,
      mapStatus s = "SUCCESS" ∨ mapStatus s = "FAILED" ∨ mapStatus s = "PROCESSING") ∧
    (∀ s : String, s ≠ "SUCCESS" → s ≠ "FAILURE" → mapStatus s = "PROCESSING") := by
  refine ⟨rfl, rfl, rfl, rfl, rfl, rfl, rfl, ?_, mapStatus_other⟩
  intro s
  simp only [mapStatus, status_mapping, lookupStr]
  repeat' split
  all_goals simp

/-- Witness for C2 at the concrete unrecognized token `NEW_TOKEN`. -/
theorem c2_status_mapping_total_witness :
    ("NEW_TOKEN" : String) ≠ "SUCCESS" ∧ ("NEW_TOKEN" : String) ≠ "FAILURE" ∧
    mapStatus "NEW_TOKEN" = "PROCESSING" :=
  ⟨by decide, by decide,
    c2_status_mapping_total.2.2.2.2.2.2.2.2 "NEW_TOKEN" (by decide) (by decide)⟩

/-- C9 (amended): the poll loop terminates early on `SUCCESS` or `FAILED`;
any successful status query resets the consecutive-error count; a non-HTML
transport/parse error below the cap continues polling, and the third
consecutive one aborts with no further query issued; but an `HTML_RESPONSE`
error aborts immediately on its first occurrence rather than counting toward
the three-error cap. -/
theorem c9_poll_loop_amended :
    (∀ (rest : List QueryOutcome) (errs : Nat),
      pollLoop (.ok "SUCCESS" :: rest) errs = (.success, 1)) ∧
    (∀ (rest : List QueryOutcome) (errs : Nat),
      pollLoop (.ok "FAILED" :: rest) errs = (.generationFailed, 1)) ∧
    (∀ (st : String) (rest : List QueryOutcome) (errs : Nat),
      st ≠ "SUCCESS" → st ≠ "FAILED" →
      pollLoop (.ok st :: rest) errs = ((pollLoop rest 0).1, (pollLoop rest 0).2 + 1)) ∧
    (∀ (e : String) (rest : List QueryOutcome) (errs : Nat),
      e ≠ "HTML_RESPONSE" → errs + 1 < max_consecutive_errors →
      pollLoop (.err e :: rest) errs =
        ((pollLoop rest (errs + 1)).1, (pollLoop rest (errs + 1)).2 + 1)) ∧
    (∀ (e : String) (rest : List QueryOutcome) (errs : Nat),
      e ≠ "HTML_RESPONSE" → max_consecutive_errors ≤ errs + 1 →
      pollLoop (.err e :: rest) errs = (.errorAbort, 1)) ∧
    (∀ (rest : List QueryOutcome) (errs : Nat),
      pollLoop (.err "HTML_RESPONSE" :: rest) errs = (.htmlAbort, 1)) := by
  refine ⟨fun rest errs => rfl, fun rest errs => rfl, ?_, ?_, ?_, fun rest errs => rfl⟩
  · intro st rest errs h1 h2
    simp [pollLoop, h1, h2]
  · intro e rest errs h1 h2
    simp [pollLoop, h1, Nat.not_le.mpr h2]
  · intro e rest errs h1 h2
    simp [pollLoop, h1, h2]

/-- Witness for C9's amended theorem at concrete traces: a `PROCESSING`
answer resets the count, a first decode error continues, a third consecutive
error aborts. -/
theorem c9_poll_loop_amended_witness :
    pollLoop [.ok "PROCESSING"] 0 =
      ((pollLoop ([] : List QueryOutcome) 0).1, (pollLoop ([] : List QueryOutcome) 0).2 + 1) ∧
    pollLoop [.err "JSON_DECODE_ERROR"] 0 =
      ((pollLoop ([] : List QueryOutcome) 1).1, (pollLoop ([] : List QueryOutcome) 1).2 + 1) ∧
    pollLoop [.err "JSON_DECODE_ERROR"] 2 = (.errorAbort, 1) :=
  ⟨c9_poll_loop_amended.2.2.1 "PROCESSING" [] 0 (by decide) (by decide),
   c9_poll_loop_amended.2.2.2.1 "JSON_DECODE_ERROR" [] 0 (by decide) (by decide),
   c9_poll_loop_amended.2.2.2.2.1 "JSON_DECODE_ERROR" [] 2 (by decide) (by decide)⟩

/-- Helper: any success record built by `finalize` carries the constant
progress value determined by its status field alone. -/
theorem finalize_ok_progress (mapped : String) (td img lyr ti au ci su : Json)
    (r : TaskData) (h : finalize mapped td img lyr ti au ci su = .ok r) :
    r.status = mapped ∧ r.progress = (if mapped = "SUCCESS" then 100 else 50) := by
  unfold finalize at h
  split at h
  · exact NormResult.noConfusion h
  · split at h
    · exact NormResult.noConfusion h
    · split at h
      · exact NormResult.noConfusion h
      · injection h with h'
        subst h'
        exact ⟨rfl, rfl⟩

/-- C10: every successfully normalized response carries a fabricated progress
value determined solely by the mapped status: 100 when the status is
`SUCCESS` and 50 otherwise — never a remote progress figure. -/
theorem c10_progress_fabricated (loads : String → Option Json)
    (scan : String → Option String) (data : Json) (r : TaskData)
    (h : normalizeWith loads scan data = .ok r) :
    (r.progress = 100 ∨ r.progress = 50) ∧ (r.progress = 100 ↔ r.status = "SUCCESS") := by
  unfold normalizeWith at h
  split at h
  · split at h
    · unfold normalizeSuccess at h
      split at h
      · split at h
        · exact NormResult.noConfusion h
        · unfold normalizeBody at h
          obtain ⟨hs, hpr⟩ := finalize_ok_progress _ _ _ _ _ _ _ _ r h
          rw [hpr, hs]
          refine ⟨by split <;> simp, by split <;> simp_all⟩
      · exact NormResult.noConfusion h
    · exact NormResult.noConfusion h
  · exact NormResult.noConfusion h

/-- Witness for C10 at the minimal success payload. -/
theorem c10_progress_fabricated_witness :
    normalize (mkSuccess (.obj [])) =
      .ok { status := "PROCESSING", progress := 50, song_url := .null, image_url := .null,
            lyrics := .null, title := .null, author := .null, clip := .obj [],
            clip_id := .null, raw_data := .obj [] } ∧
    (((50 : Nat) = 100 ∨ (50 : Nat) = 50) ∧ ((50 : Nat) = 100 ↔ "PROCESSING" = "SUCCESS")) :=
  ⟨rfl,
   c10_progress_fabricated json_loads url_scan (mkSuccess (.obj []))
     { status := "PROCESSING", progress := 50, song_url := .null, image_url := .null,
       lyrics := .null, title := .null, author := .null, clip := .obj [],
       clip_id := .null, raw_data := .obj [] } rfl⟩

/-- Helper: with a dict `task_data`, the success body never consults the URL
scanner (the regex branch needs a string `task_data`). -/
theorem normalizeBody_scan_irrel (loads : String → Option Json)
    (scan scan' : String → Option String) (m : String) (fs : List (String × Json)) :
    normalizeBody loads scan m (.obj fs) = normalizeBody loads scan' m (.obj fs) := by
  simp [normalizeBody, stringCase, regexCase]

/-- Helper: `normalizeSuccess` never consults the URL scanner: non-dict
`task_data` raises before the scan, dict `task_data` never reaches it. -/
theorem normalizeSuccess_scan_irrel (loads : String → Option Json)
    (scan scan' : String → Option String) (td : Json) :
    normalizeSuccess loads scan td = normalizeSuccess loads scan' td := by
  cases td <;> rfl

/-- C6 (amended): the regex scan is never performed: the scanning branch
requires the payload's `data` value to be a string, and string `data` values
abort with `AttributeError` at the status lookup before reaching it, so the
normalization outcome is independent of the scanner — when no candidate URL
field is present, `song_url` stays `None` regardless of URLs in the raw
text. -/
theorem c6_scan_independence (loads : String → Option Json)
    (scan scan' : String → Option String) (data : Json) :
    normalizeWith loads scan data = normalizeWith loads scan' data := by
  unfold normalizeWith
  split
  · split
    · exact normalizeSuccess_scan_irrel loads scan scan' _
    · rfl
  · rfl

/-- Helper: first truthy entry of an empty priority list. -/
theorem firstTruthy_nil : firstTruthy [] = .null := rfl

/-- Helper: a truthy head wins. -/
theorem firstTruthy_cons_pos {a : Json} (l : List Json) (h : truthy a = true) :
    firstTruthy (a :: l) = a := by
  simp [firstTruthy, List.find?, h]

/-- Helper: a falsy head is skipped. -/
theorem firstTruthy_cons_neg {a : Json} (l : List Json) (h : truthy a = false) :
    firstTruthy (a :: l) = firstTruthy l := by
  simp [firstTruthy, List.find?, h]

/-- Helper: priority concatenation searches the left list first. -/
theorem firstTruthy_append (l1 l2 : List Json) :
    firstTruthy (l1 ++ l2) =
      if truthy (firstTruthy l1) then firstTruthy l1 else firstTruthy l2 := by
  induction l1 with
  | nil => simp [firstTruthy_nil, truthy]
  | cons a l ih =>
    cases h : truthy a
    · rw [List.cons_append, firstTruthy_cons_neg _ h, ih, firstTruthy_cons_neg _ h]
    · rw [List.cons_append, firstTruthy_cons_pos _ h, firstTruthy_cons_pos _ h, if_pos h]

/-- Helper: the deep loop's URL component follows the priority order of its
key list. -/
theorem searchDeep_fst (nested : Json) (ci : Json) (keys : List String) :
    (searchDeep nested ci keys).1 = firstTruthy (keys.map (deepEntry nested)) := by
  induction keys generalizing ci with
  | nil => rfl
  | cons k rest ih =>
    simp only [searchDeep, List.map_cons, deepEntry]
    by_cases hd : isDict (dgetD nested k (.obj [])) = true
    · simp only [if_pos hd]
      by_cases hsu : truthy (findField (dgetD nested k (.obj [])) potential_url_fields) = true
      · simp only [if_pos hsu, firstTruthy_cons_pos _ hsu]
      · have hsu' : truthy (findField (dgetD nested k (.obj [])) potential_url_fields) = false :=
          by simpa using hsu
        simp only [if_neg hsu, firstTruthy_cons_neg _ hsu', ih]
    · simp only [if_neg hd, ih]
      exact (@firstTruthy_cons_neg Json.null _ rfl).symm

/-- Helper: the shallow-container loop's URL component follows the
depth-first priority order. -/
theorem searchContainers_fst (td : Json) (ci : Json) (keys : List String) :
    (searchContainers td ci keys).1 = firstTruthy (keys.flatMap (containerEntries td)) := by
  induction keys generalizing ci with
  | nil => rfl
  | cons k rest ih =>
    simp only [searchContainers, List.flatMap_cons, containerEntries]
    by_cases hd : isDict (dgetD td k (.obj [])) = true
    · simp only [if_pos hd, List.cons_append]
      by_cases hsu : truthy (findField (dgetD td k (.obj [])) potential_url_fields) = true
      · simp only [if_pos hsu, firstTruthy_cons_pos _ hsu]
      · have hsu' : truthy (findField (dgetD td k (.obj [])) potential_url_fields) = false :=
          by simpa using hsu
        simp only [if_neg hsu, firstTruthy_cons_neg _ hsu', firstTruthy_append]
        have hS := searchDeep_fst (dgetD td k (.obj []))
          (pyOr ci (orChain (dgetD td k (.obj [])) clip_id_fields)) ["clip", "audio", "result"]
        by_cases hp : truthy (searchDeep (dgetD td k (.obj []))
            (pyOr ci (orChain (dgetD td k (.obj [])) clip_id_fields))
            ["clip", "audio", "result"]).1 = true
        · rw [hS] at hp
          simp only [hS, if_pos hp]
        · have hp' := hp
          rw [hS] at hp'
          simp only [if_neg hp, if_neg hp', ih]
    · simp only [if_neg hd, List.singleton_append, ih]
      exact (@firstTruthy_cons_neg Json.null _ rfl).symm

/-- Helper: the results-list loop's URL component follows item order. -/
theorem searchItems_fst (ci : Json) (items : List Json) :
    (searchItems ci items).1 = firstTruthy (items.map itemEntry) := by
  induction items generalizing ci with
  | nil => rfl
  | cons item rest ih =>
    simp only [searchItems, List.map_cons, itemEntry]
    by_cases hd : isDict item = true
    · simp only [if_pos hd]
      by_cases hsu : truthy (findField item potential_url_fields) = true
      · simp only [if_pos hsu, firstTruthy_cons_pos _ hsu]
      · have hsu' : truthy (findField item potential_url_fields) = false := by simpa using hsu
        simp only [if_neg hsu, firstTruthy_cons_neg _ hsu', ih]
    · simp only [if_neg hd, ih]
      exact (@firstTruthy_cons_neg Json.null _ rfl).symm

/-- Helper: the results/clips list search in terms of its declarative
entries. -/
theorem searchResultsList_fst (td : Json) (ci : Json) :
    (searchResultsList td ci).1 = firstTruthy (listItemEntries td) := by
  unfold searchResultsList listItemEntries
  cases pyOr (dgetD td "results" (.arr [])) (dgetD td "clips" (.arr [])) <;>
    first
      | rfl
      | exact searchItems_fst ci _

/-- C3 (amended): the URL search is a strict priority order, but the
containers are searched depth-first, not breadth-first: direct candidate
fields win; then each of the containers `clip`, `audio`, `result`, `data` in
order is searched together with — immediately, before the next shallow
container — one level deeper under `clip`, `audio`, `result` (not `data`)
inside it; then `audio_info`/`audioInfo`; then the `results`/`clips` list
items in order.  The first candidate field yielding a truthy value wins and
stops the URL search. -/
theorem c3_url_search_order_amended (td : Json) :
    (dictSearch td).1 = urlSearchSpec td := by
  simp only [dictSearch, urlSearchSpec, urlSpecList]
  by_cases hsu : truthy (findField td potential_url_fields) = true
  · simp only [firstTruthy_cons_pos _ hsu, if_pos hsu]
  · have hsu' : truthy (findField td potential_url_fields) = false := by simpa using hsu
    rw [firstTruthy_cons_neg _ hsu', if_neg hsu]
    have hS := searchContainers_fst td (orChain td clip_id_fields)
      ["clip", "audio", "result", "data"]
    by_cases hp : truthy (searchContainers td (orChain td clip_id_fields)
        ["clip", "audio", "result", "data"]).1 = true
    · have hp' := hp
      rw [hS] at hp'
      rw [if_pos hp, if_pos hp, firstTruthy_append, if_pos hp', hS]
    · have hp' := hp
      rw [hS] at hp'
      rw [if_neg hp, firstTruthy_append, if_neg hp']
      by_cases ha : truthy (audioInfoSearch td) = true
      · rw [if_pos ha, firstTruthy_cons_pos _ ha]
      · have ha' : truthy (audioInfoSearch td) = false := by simpa using ha
        rw [if_neg ha, firstTruthy_cons_neg _ ha', searchResultsList_fst]

/-- Helper: an or-chain over keys absent from the dict yields None. -/
theorem orChain_null (x : Json) : ∀ (ks : List String),
    (∀ k ∈ ks, dget x k = .null) → orChain x ks = .null
  | [], _ => rfl
  | [k], h => by
    have h1 := h k (by simp)
    simp [orChain, h1]
  | k :: k2 :: rest, h => by
    have h1 := h k (by simp)
    have h2 := orChain_null x (k2 :: rest) (fun k' hk' => h k' (by simp [hk']))
    simp [orChain, h1, h2, pyOr, truthy]

/-- Helper: the candidate-field loop over keys absent from the dict finds
nothing. -/
theorem findField_null (x : Json) : ∀ (ks : List String),
    (∀ k ∈ ks, dget x k = .null) → findField x ks = .null
  | [], _ => rfl
  | k :: rest, h => by
    have h1 := h k (by simp)
    have h2 := findField_null x rest (fun k' hk' => h k' (by simp [hk']))
    simp [findField, h1, h2, truthy]

/-- Helper: the shallow/deep container search over absent container keys
finds nothing and leaves a null clip id untouched. -/
theorem searchContainers_trivial (td : Json) : ∀ (ks : List String),
    (∀ k ∈ ks, dgetD td k (.obj []) = .obj []) →
    searchContainers td .null ks = (.null, .null)
  | [], _ => rfl
  | k :: rest, h => by
    have h1 := h k (by simp)
    have ih := searchContainers_trivial td rest (fun k' hk' => h k' (by simp [hk']))
    simp only [searchContainers, h1]
    exact ih

/-- Helper: the deeper resource loop over absent container keys fills in
nothing. -/
theorem nestedResourceLoop_trivial (td : Json) : ∀ (ks : List String),
    (∀ k ∈ ks, dgetD td k (.obj []) = .obj []) →
    nestedResourceLoop td ks .null .null .null .null .null .null =
      (.null, .null, .null, .null, .null, .null)
  | [], _ => rfl
  | k :: rest, h => by
    have h1 := h k (by simp)
    have ih := nestedResourceLoop_trivial td rest (fun k' hk' => h k' (by simp [hk']))
    simp only [nestedResourceLoop, h1]
    exact ih

/-- C8 (amended): when no searched key is present at all, every optional
field of the result is None and the status defaults to `PROCESSING`; however
— per the counterexample — a candidate key that is present with an empty
string as its value can surface as an empty string (the or-chains return
their last operand even when it is falsy), so "no candidate yields a
non-empty value" alone does not guarantee None. -/
theorem c8_absent_keys_all_null (loads : String → Option Json)
    (scan : String → Option String) (fs : List (String × Json))
    (h : ∀ k ∈ searched_keys, lookupStr fs k = none) :
    normalizeWith loads scan (mkSuccess (.obj fs)) =
      .ok { status := "PROCESSING", progress := 50, song_url := .null, image_url := .null,
            lyrics := .null, title := .null, author := .null, clip := .obj [],
            clip_id := .null, raw_data := .obj fs } := by
  have hdget : ∀ k ∈ searched_keys, dget (.obj fs) k = .null :=
    fun k hk => by simp [dget, jlookup, h k hk]
  have hdgetD : ∀ k ∈ searched_keys, ∀ d : Json, dgetD (.obj fs) k d = d :=
    fun k hk d => by simp [dgetD, jlookup, h k hk]
  have hkey : ∀ k ∈ searched_keys, hasKey (.obj fs) k = false :=
    fun k hk => by simp [hasKey, jlookup, h k hk]
  have hsub1 : ∀ k ∈ clip_id_fields, k ∈ searched_keys := by decide
  have hsub2 : ∀ k ∈ potential_url_fields, k ∈ searched_keys := by decide
  have hsub3 : ∀ k ∈ (["clip", "audio", "result", "data"] : List String),
      k ∈ searched_keys := by decide
  have hsub4 : ∀ k ∈ image_url_fields, k ∈ searched_keys := by decide
  have hsub5 : ∀ k ∈ lyrics_fields, k ∈ searched_keys := by decide
  have hsub6 : ∀ k ∈ title_fields, k ∈ searched_keys := by decide
  have hsub7 : ∀ k ∈ author_fields, k ∈ searched_keys := by decide
  have hcif : orChain (.obj fs) clip_id_fields = .null :=
    orChain_null _ _ (fun k hk => hdget k (hsub1 k hk))
  have hurl : findField (.obj fs) potential_url_fields = .null :=
    findField_null _ _ (fun k hk => hdget k (hsub2 k hk))
  have hcont : searchContainers (.obj fs) .null ["clip", "audio", "result", "data"] =
      (.null, .null) :=
    searchContainers_trivial _ _ (fun k hk => hdgetD k (hsub3 k hk) _)
  have haud : audioInfoSearch (.obj fs) = .null := by
    unfold audioInfoSearch
    rw [hdgetD "audio_info" (by decide) _, hdgetD "audioInfo" (by decide) _]
    rfl
  have hres : searchResultsList (.obj fs) .null = (.null, .null) := by
    unfold searchResultsList
    rw [hdgetD "results" (by decide) _, hdgetD "clips" (by decide) _]
    rfl
  have hds : dictSearch (.obj fs) = (.null, .null) := by
    simp only [dictSearch]
    rw [hcif, hurl]
    simp [truthy, hcont, haud, hres]
  have himg : orChain (.obj fs) image_url_fields = .null :=
    orChain_null _ _ (fun k hk => hdget k (hsub4 k hk))
  have hlyr : orChain (.obj fs) lyrics_fields = .null :=
    orChain_null _ _ (fun k hk => hdget k (hsub5 k hk))
  have hti : orChain (.obj fs) title_fields = .null :=
    orChain_null _ _ (fun k hk => hdget k (hsub6 k hk))
  have hau : orChain (.obj fs) author_fields = .null :=
    orChain_null _ _ (fun k hk => hdget k (hsub7 k hk))
  have hloop : nestedResourceLoop (.obj fs) ["clip", "audio", "result", "data"]
      .null .null .null .null .null .null = (.null, .null, .null, .null, .null, .null) :=
    nestedResourceLoop_trivial _ _ (fun k hk => hdgetD k (hsub3 k hk) _)
  have hne : nestedExtraction (.obj fs) .null .null =
      (.null, .null, .null, .null, .null, .null) := by
    simp only [nestedExtraction]
    rw [himg, hlyr, hti, hau]
    simp [truthy, hcif, hloop]
  have hrs : resourceStage (.obj fs) .null .null =
      (.null, .null, .null, .null, .null, .null) := by
    simp only [resourceStage]
    rw [hkey "audio_url" (by decide), hkey "image_url" (by decide), hkey "prompt" (by decide),
      hdgetD "data" (by decide) _, hdgetD "results" (by decide) _, hdgetD "clips" (by decide) _]
    simp [isDict, pyOr, truthy, hne]
  have htitle : dget (.obj fs) "title" = .null := hdget "title" (by decide)
  have hbody : normalizeBody loads scan "PROCESSING" (.obj fs) =
      .ok { status := "PROCESSING", progress := 50, song_url := .null, image_url := .null,
            lyrics := .null, title := .null, author := .null, clip := .obj [],
            clip_id := .null, raw_data := .obj fs } := by
    simp only [normalizeBody, stringCase, isDict, if_true, hds]
    simp [regexCase, truthy, hrs, finalize, sanitizeJson, pyOr, isDict, htitle]
  have hstat : statusOf (.obj fs) = .str "PROCESSING" := hdgetD "status" (by decide) _
  show normalizeSuccess loads scan (.obj fs) = _
  simp only [normalizeSuccess, hstat, isDict, isList]
  exact hbody

/-- Helper: stripping the observed response decoration (space, backtick,
payload, backtick, space) leaves the payload between one backtick pair. -/
theorem stripChars_wrap (l : List Char) :
    stripChars (' ' :: btick :: (l ++ [btick, ' '])) = btick :: (l ++ [btick]) := by
  unfold stripChars
  rw [List.dropWhile_cons_of_pos (by decide), List.dropWhile_cons_of_neg (by decide)]
  have h2 : (btick :: (l ++ [btick, ' '])).reverse = ' ' :: btick :: (l.reverse ++ [btick]) := by
    simp
  rw [h2, List.dropWhile_cons_of_pos (by decide), List.dropWhile_cons_of_neg (by decide)]
  simp

/-- Helper: the URL sanitizer recovers the exact payload from the observed
decoration, for every payload string. -/
theorem sanitizeUrl_wrap (u : String) : sanitizeUrl (" `" ++ u ++ "` ") = u := by
  cases u with
  | mk l =>
    have hdata : ((" `" ++ String.mk l ++ "` ") : String).data
        = ' ' :: btick :: (l ++ [btick, ' ']) := rfl
    simp only [sanitizeUrl, hdata, stripChars_wrap]
    rw [if_pos ⟨rfl, by rw [show btick :: (l ++ [btick]) = (btick :: l) ++ [btick] from rfl,
      List.getLast?_concat]⟩]
    rw [show (btick :: (l ++ [btick])).drop 1 = l ++ [btick] from rfl, List.dropLast_concat]

/-- Helper: a wrapped string is truthy (it is nonempty). -/
theorem truthy_wrap (u : String) : truthy (.str (" `" ++ u ++ "` ")) = true := by
  cases u with
  | mk l => rfl

/-- Helper: evaluation of the normalizer on a success payload carrying a
truthy string under the direct `audio_url` field: the sanitized string is
returned as `song_url`. -/
theorem normalize_direct_audio (s : String) (hs : truthy (.str s) = true) :
    normalize (mkSuccess (.obj [("status", .str "SUCCESS"), ("audio_url", .str s)])) =
      .ok { status := "SUCCESS", progress := 100, song_url := .str (sanitizeUrl s),
            image_url := .null, lyrics := .null, title := .null, author := .null,
            clip := .obj [], clip_id := .null,
            raw_data := .obj [("status", .str "SUCCESS"), ("audio_url", .str s)] } := by
  have hs1 : s.data.isEmpty = false := by simpa [truthy] using hs
  have hs2 : ¬ s.data = [] := by simpa using hs1
  show normalizeSuccess json_loads url_scan
      (.obj [("status", .str "SUCCESS"), ("audio_url", .str s)]) = _
  simp only [normalizeSuccess, statusOf, isDict, isList, normalizeBody, stringCase,
    dictSearch, regexCase, resourceStage, finalize, sanitizeJson]
  simp [dget, dgetD, jlookup, lookupStr, hasKey, findField, orChain, pyOr, truthy, hs, hs1,
    hs2, potential_url_fields, clip_id_fields, image_url_fields, lyrics_fields, title_fields,
    author_fields, mapStatusJson, mapStatus, status_mapping, isStr, isList, isDict,
    searchContainers, searchDeep, audioInfoSearch, searchResultsList, searchItems,
    nestedExtraction, nestedResourceLoop]

/-- Helper: evaluation of the normalizer on a success payload carrying a
truthy string under the direct `image_url` field. -/
theorem normalize_direct_image (s : String) (hs : truthy (.str s) = true) :
    normalize (mkSuccess (.obj [("image_url", .str s)])) =
      .ok { status := "PROCESSING", progress := 50, song_url := .null,
            image_url := .str (sanitizeUrl s), lyrics := .null, title := .null,
            author := .null, clip := .obj [], clip_id := .null,
            raw_data := .obj [("image_url", .str s)] } := by
  have hs1 : s.data.isEmpty = false := by simpa [truthy] using hs
  have hs2 : ¬ s.data = [] := by simpa using hs1
  show normalizeSuccess json_loads url_scan (.obj [("image_url", .str s)]) = _
  simp only [normalizeSuccess, statusOf, isDict, isList, normalizeBody, stringCase,
    dictSearch, regexCase, resourceStage, finalize, sanitizeJson]
  simp [dget, dgetD, jlookup, lookupStr, hasKey, findField, orChain, pyOr, truthy, hs, hs1,
    hs2, potential_url_fields, clip_id_fields, image_url_fields, lyrics_fields, title_fields,
    author_fields, mapStatusJson, mapStatus, status_mapping, isStr, isList, isDict,
    searchContainers, searchDeep, audioInfoSearch, searchResultsList, searchItems,
    nestedExtraction, nestedResourceLoop]

/-- C4: found `song_url`/`image_url` strings are returned trimmed of
surrounding whitespace with one surrounding backtick pair removed — for every
payload string wrapped in the observed decoration — and in particular the
spec's example payload normalizes to status `SUCCESS` with
`song_url = "https://x/y.mp3"`. -/
theorem c4_url_sanitization :
    (∀ u : String,
      normalize (mkSuccess (.obj [("status", .str "SUCCESS"),
          ("audio_url", .str (" `" ++ u ++ "` "))])) =
        .ok { status := "SUCCESS", progress := 100, song_url := .str u,
              image_url := .null, lyrics := .null, title := .null, author := .null,
              clip := .obj [], clip_id := .null,
              raw_data := .obj [("status", .str "SUCCESS"),
                ("audio_url", .str (" `" ++ u ++ "` "))] }) ∧
    (∀ u : String,
      normalize (mkSuccess (.obj [("image_url", .str (" `" ++ u ++ "` "))])) =
        .ok { status := "PROCESSING", progress := 50, song_url := .null,
              image_url := .str u, lyrics := .null, title := .null, author := .null,
              clip := .obj [], clip_id := .null,
              raw_data := .obj [("image_url", .str (" `" ++ u ++ "` "))] }) ∧
    normalize c4payload =
      .ok { status := "SUCCESS", progress := 100, song_url := .str "https://x/y.mp3",
            image_url := .null, lyrics := .null, title := .null, author := .null,
            clip := .obj [], clip_id := .null,
            raw_data := .obj [("status", .str "SUCCESS"),
              ("audio_url", .str " `https://x/y.mp3` ")] } := by
  refine ⟨?_, ?_, rfl⟩
  · intro u
    rw [normalize_direct_audio _ (truthy_wrap u), sanitizeUrl_wrap]
  · intro u
    rw [normalize_direct_image _ (truthy_wrap u), sanitizeUrl_wrap]

/-- Witness for C8's amended theorem at a dict holding only a key no search
ever consults. -/
theorem c8_absent_keys_all_null_witness :
    normalizeWith json_loads url_scan (mkSuccess (.obj [("zzz", .str "hi")])) =
      .ok { status := "PROCESSING", progress := 50, song_url := .null, image_url := .null,
            lyrics := .null, title := .null, author := .null, clip := .obj [],
            clip_id := .null, raw_data := .obj [("zzz", .str "hi")] } :=
  c8_absent_keys_all_null json_loads url_scan [("zzz", .str "hi")]
    (by
      intro k hk
      have hne : "zzz" ≠ k := by
        intro he
        rw [← he] at hk
        exact absurd hk (by decide)
      simp [lookupStr, hne])

end SunoSpec
